import Mathlib

/-!
Verification of the enreachvoice client library's classification
decoration logic (`src/enreachvoice/classifications.py`) and transcript
polling loop (`src/enreachvoice/restapi.py`), as a shallow embedding.

Python dictionaries are modelled as association lists with
insertion-order-preserving update semantics (`dlookup` / `dinsert`),
`dict.get(k)` as `Option`-valued lookup, `dict.get(k, default)` as
`(dlookup d k).getD default`, and Python truthiness of an integer
(`if tag_id:`) as the test `≠ 0`, of a string as `≠ ""`.
Exceptions become an explicit error type (`EnreachError`) threaded
through `Except`.
-/

namespace EnreachVoice

/-- Association-list lookup mirroring Python `d[k]` / `k in d`. -/
def dlookup {α β : Type} [DecidableEq α] : List (α × β) → α → Option β
  | [], _ => none
  | (k, v) :: rest, k0 => if k = k0 then some v else dlookup rest k0

/-- Association-list update mirroring Python `d[k] = v`: an existing key
keeps its position and gets the new value; a new key is appended. -/
def dinsert {α β : Type} [DecidableEq α] : List (α × β) → α → β → List (α × β)
  | [], k, v => [(k, v)]
  | (k0, v0) :: rest, k, v =>
    if k0 = k then (k0, v) :: rest else (k0, v0) :: dinsert rest k v

/-- Error taxonomy of `src/enreachvoice/exceptions.py` plus Python's
builtin `ValueError` (raised by the validation guards). The repository
defines only the base `EnreachAPIException` and the two subclasses
`AuthenticationException` and `RateLimitException`; there is no timeout
exception class. The `status_code` / `response` attributes are omitted:
the modelled raise sites never set them. -/
inductive EnreachError where
  | valueError (message : String)
  | enreachAPIException (message : String)
  | authenticationException (message : String)
  | rateLimitException (message : String)
deriving DecidableEq, Repr

/-- `true` exactly on the base class `EnreachAPIException` itself, the
generic upstream-failure kind (subclass instances are the other
constructors). -/
def isBaseAPIException : EnreachError → Bool
  | .enreachAPIException _ => true
  | _ => false

/-- A `Tag` dict inside a schema group: `tag.get('Id')`,
`tag.get('Name', 'Unknown Tag')`. -/
structure Tag where
  Id : Option Int
  Name : Option String
deriving DecidableEq, Repr

/-- A `Group` dict inside a schema: `group.get('Name', 'Unknown Group')`,
`group.get('MaxSelections', 1)`, `group.get('Tags', [])`. -/
structure Group where
  Name : Option String
  MaxSelections : Option Int
  Tags : List Tag
deriving DecidableEq, Repr

/-- A TagSchema dict with children included: `schema.get('Groups', [])`. -/
structure Schema where
  Id : String
  Name : Option String
  Groups : List Group
deriving DecidableEq, Repr

/-- One element of a classification's `TagSelections` list:
`selection.get('TagId')`. -/
structure TagSelection where
  TagId : Option Int
deriving DecidableEq, Repr

/-- A value of the `TagsPretty` dict: a single string for single-select
groups, a list of strings for multi-select groups. -/
inductive PrettyVal where
  | str (s : String)
  | list (xs : List String)
deriving DecidableEq, Repr

/-- A ClassificationInstance dict. `TagsPretty = none` models the key
being absent (as in every record coming from the upstream API). -/
structure Classification where
  Id : String
  TagSchemaId : Option String
  TagSelections : List TagSelection
  Note : Option String
  ClassifiedType : String
  CallId : Option String
  CallbackListItemId : Option String
  TagsPretty : Option (List (String × PrettyVal)) := none
deriving DecidableEq, Repr

/-- Value stored in `tag_map`: `{'name': ..., 'group': ...}`. -/
structure TagInfo where
  name : String
  group : String
deriving DecidableEq, Repr

/-- Inner loop of the `tag_map` construction, over the tags of one group
(`classifications.py` lines 350-356): a tag with a falsy identifier
(missing or 0) adds no entry. -/
def tagEntryStep (group_name : String) (tag_map : List (Int × TagInfo))
    (tag : Tag) : List (Int × TagInfo) :=
  match tag.Id with
  | none => tag_map
  | some tag_id =>
    if tag_id = 0 then tag_map
    else dinsert tag_map tag_id ⟨tag.Name.getD "Unknown Tag", group_name⟩

/-- `tag_map` built over all groups (`classifications.py` lines 345-356). -/
def buildTagMap (groups : List Group) : List (Int × TagInfo) :=
  groups.foldl
    (fun tm group => (group.Tags).foldl (tagEntryStep (group.Name.getD "Unknown Group")) tm)
    []

/-- `group_max_selections` built over all groups
(`classifications.py` lines 345-348). -/
def buildGroupMax (groups : List Group) : List (String × Int) :=
  groups.foldl
    (fun gm group => dinsert gm (group.Name.getD "Unknown Group") (group.MaxSelections.getD 1))
    []

/-- One iteration of the decoration loop
(`classifications.py` lines 361-378). A selection with a falsy (`none`
or 0) or unresolvable `TagId` leaves `tags_pretty` unchanged. In the
multi-select branch, `if group_name not in tags_pretty` followed by
`append` collapses to inserting a one-element list; the `str` case of
that branch is unreachable in runs started from the empty dict (the
max-selections of a group name is fixed), and is modelled as leaving the
stored string in place. -/
def decorStep (tag_map : List (Int × TagInfo)) (group_max_selections : List (String × Int))
    (tags_pretty : List (String × PrettyVal)) (selection : TagSelection) :
    List (String × PrettyVal) :=
  match selection.TagId with
  | none => tags_pretty
  | some tag_id =>
    if tag_id = 0 then tags_pretty
    else
      match dlookup tag_map tag_id with
      | none => tags_pretty
      | some tag_info =>
        let group_name := tag_info.group
        let tag_name := tag_info.name
        let max_selections := (dlookup group_max_selections group_name).getD 1
        if max_selections > 1 then
          match dlookup tags_pretty group_name with
          | none => dinsert tags_pretty group_name (.list [tag_name])
          | some (.list xs) => dinsert tags_pretty group_name (.list (xs ++ [tag_name]))
          | some (.str s) => dinsert tags_pretty group_name (.str s)
        else
          dinsert tags_pretty group_name (.str tag_name)

/-- The whole decoration loop (`classifications.py` lines 359-378). -/
def buildTagsPretty (selections : List TagSelection)
    (tag_map : List (Int × TagInfo)) (group_max_selections : List (String × Int)) :
    List (String × PrettyVal) :=
  selections.foldl (decorStep tag_map group_max_selections) []

/-- The external HTTP collaborators reached through `invoke_api`,
supplied as an environment: the classification find query and the schema
fetch. A `none` schema result models a falsy (empty) response body,
which `get_call_classification_pretty` checks for. -/
structure Env where
  apiFindClassifications : Option String → Option String → Except EnreachError (List Classification)
  apiGetSchema : String → Bool → Except EnreachError (Option Schema)

/-- `find_classifications` (`classifications.py` lines 207-255):
validation that at least one identifier is truthy, then the query. -/
def find_classifications (env : Env) (call_id : Option String)
    (callback_list_item_id : Option String) : Except EnreachError (List Classification) :=
  if (call_id.getD "" = "") ∧ (callback_list_item_id.getD "" = "") then
    .error (.valueError "Either call_id or callback_list_item_id must be provided")
  else
    env.apiFindClassifications call_id callback_list_item_id

/-- `get_call_classification` (`classifications.py` lines 257-290):
first match or `None`. -/
def get_call_classification (env : Env) (call_id : String) :
    Except EnreachError (Option Classification) :=
  if call_id = "" then .error (.valueError "call_id is required")
  else
    match find_classifications env (some call_id) none with
    | .error e => .error e
    | .ok classifications => .ok classifications.head?

/-- `get_classification_schema` (`classifications.py` lines 88-128). -/
def get_classification_schema (env : Env) (schema_id : String)
    (include_children : Bool) : Except EnreachError (Option Schema) :=
  if schema_id = "" then .error (.valueError "schema_id is required")
  else env.apiGetSchema schema_id include_children

/-- `get_call_classification_pretty` (`classifications.py` lines 292-383):
fetch the classification, return it untouched when absent schema id or
falsy schema, otherwise attach the `TagsPretty` field. -/
def get_call_classification_pretty (env : Env) (call_id : String) :
    Except EnreachError (Option Classification) :=
  if call_id = "" then .error (.valueError "call_id is required")
  else
    match get_call_classification env call_id with
    | .error e => .error e
    | .ok none => .ok none
    | .ok (some classification) =>
      match classification.TagSchemaId with
      | none => .ok (some classification)
      | some schema_id =>
        if schema_id = "" then .ok (some classification)
        else
          match get_classification_schema env schema_id true with
          | .error e => .error e
          | .ok none => .ok (some classification)
          | .ok (some schema) =>
            let tag_map := buildTagMap schema.Groups
            let group_max_selections := buildGroupMax schema.Groups
            let tags_pretty :=
              buildTagsPretty classification.TagSelections tag_map group_max_selections
            .ok (some { classification with TagsPretty := some tags_pretty })

/-- A transcript record: `transcript['TranscriptStatus']` plus the rest
of the payload, abstracted as one string. -/
structure Transcript where
  TranscriptStatus : String
  Text : String
deriving DecidableEq, Repr

/-- Observable outcome of `get_transcript`: the returned record or the
raised exception, together with how many `invoke_api` fetches were
performed and how many `time.sleep(10)` delays elapsed. -/
structure PollResult where
  result : Except EnreachError Transcript
  fetches : Nat
  sleeps : Nat

/-- The `while status == 'Pending'` loop of `get_transcript`
(`restapi.py` lines 410-420), with the upstream modelled as the sequence
`fetch n` = record returned by the (n+1)-th `invoke_api` call.
`remaining = max_retries - retries` counts down; the guard
`retries >= max_retries` fires exactly when it reaches 0. -/
def pollLoop (fetch : Nat → Transcript) (transcriptId : String) :
    Nat → Nat → Nat → Transcript → PollResult
  | 0, fetchCount, sleeps, transcript =>
    if transcript.TranscriptStatus = "Pending" then
      ⟨.error (.enreachAPIException
          ("Transcript " ++ transcriptId ++ " still pending after 10 retries")),
        fetchCount, sleeps⟩
    else ⟨.ok transcript, fetchCount, sleeps⟩
  | remaining + 1, fetchCount, sleeps, transcript =>
    if transcript.TranscriptStatus = "Pending" then
      pollLoop fetch transcriptId remaining (fetchCount + 1) (sleeps + 1) (fetch fetchCount)
    else ⟨.ok transcript, fetchCount, sleeps⟩

/-- `get_transcript` (`restapi.py` lines 389-422): one initial fetch,
then, when the status is Pending and `wait_pending` is set, the bounded
retry loop with `max_retries = 10`. -/
def get_transcript (fetch : Nat → Transcript) (transcriptId : String)
    (wait_pending : Bool) : PollResult :=
  let transcript := fetch 0
  if transcript.TranscriptStatus = "Pending" ∧ wait_pending = true then
    pollLoop fetch transcriptId 10 1 0 transcript
  else ⟨.ok transcript, 1, 0⟩

theorem dlookup_dinsert_self {α β : Type} [DecidableEq α]
    (d : List (α × β)) (k : α) (v : β) : dlookup (dinsert d k v) k = some v := by
  induction d with
  | nil => simp [dinsert, dlookup]
  | cons hd tl ih =>
    obtain ⟨k0, v0⟩ := hd
    by_cases h : k0 = k <;> simp [dinsert, dlookup, h, ih]

theorem dlookup_dinsert_ne {α β : Type} [DecidableEq α]
    (d : List (α × β)) (k k' : α) (v : β) (h : k ≠ k') :
    dlookup (dinsert d k v) k' = dlookup d k' := by
  induction d with
  | nil => simp [dinsert, dlookup, h]
  | cons hd tl ih =>
    obtain ⟨k0, v0⟩ := hd
    by_cases h0 : k0 = k
    · subst h0
      simp [dinsert, dlookup, h]
    · simp [dinsert, dlookup, h0, ih]

/-- The display name contributed by one selection to the group named
`g`, if any: the selection resolves through `tag_map` (truthy `TagId`
present in the map) and its tag belongs to `g`. -/
def resolveSel (tag_map : List (Int × TagInfo)) (g : String)
    (selection : TagSelection) : Option String :=
  match selection.TagId with
  | none => none
  | some tag_id =>
    if tag_id = 0 then none
    else
      match dlookup tag_map tag_id with
      | none => none
      | some tag_info => if tag_info.group = g then some tag_info.name else none

/-- The display names of the resolvable selections of group `g`, in
original selection order. -/
def resolvedNames (tag_map : List (Int × TagInfo)) (g : String)
    (selections : List TagSelection) : List String :=
  selections.filterMap (resolveSel tag_map g)

/-- How the value stored at a multi-select group's key evolves when the
names `ns` are appended in order. -/
def mergeMulti : Option PrettyVal → List String → Option PrettyVal
  | v, [] => v
  | none, ns => some (.list ns)
  | some (.list xs), ns => some (.list (xs ++ ns))
  | some (.str s), _ => some (.str s)

theorem mergeMulti_append (v : Option PrettyVal) (ns1 ns2 : List String) :
    mergeMulti (mergeMulti v ns1) ns2 = mergeMulti v (ns1 ++ ns2) := by
  match v, ns1, ns2 with
  | v, [], ns2 => simp [mergeMulti]
  | none, n :: ns1, [] => simp [mergeMulti]
  | none, n :: ns1, m :: ns2 => simp [mergeMulti]
  | some (.list xs), n :: ns1, [] => simp [mergeMulti]
  | some (.list xs), n :: ns1, m :: ns2 => simp [mergeMulti]
  | some (.str s), n :: ns1, [] => simp [mergeMulti]
  | some (.str s), n :: ns1, m :: ns2 => simp [mergeMulti]

/-- How the value stored at a single-select group's key evolves: each
name in `ns` overwrites, so the last (if any) wins. -/
def overwriteLast (v : Option PrettyVal) (ns : List String) : Option PrettyVal :=
  ns.foldl (fun _ t => some (.str t)) v

theorem overwriteLast_append (v : Option PrettyVal) (ns1 ns2 : List String) :
    overwriteLast (overwriteLast v ns1) ns2 = overwriteLast v (ns1 ++ ns2) := by
  simp [overwriteLast, List.foldl_append]

theorem overwriteLast_eq_getLast (v : Option PrettyVal) (ns : List String) :
    overwriteLast v ns = (ns.getLast?).elim v (fun t => some (.str t)) := by
  induction ns generalizing v with
  | nil => simp [overwriteLast]
  | cons y ys ih =>
    have hstep : overwriteLast v (y :: ys) = overwriteLast (some (.str y)) ys := rfl
    rw [hstep, ih]
    cases hys : ys.getLast? with
    | none =>
      have : ys = [] := List.getLast?_eq_none_iff.mp hys
      subst this
      simp
    | some t =>
      cases ys with
      | nil => simp at hys
      | cons z zs => rw [List.getLast?_cons_cons, hys]; simp

/-- One decoration step, seen from the key of a multi-select group
`g`: it appends the name the selection resolves to for `g` (if any) and
touches nothing else at that key. -/
theorem dlookup_decorStep_multi (tm : List (Int × TagInfo)) (gm : List (String × Int))
    (g : String) (hg : 1 < (dlookup gm g).getD 1)
    (d : List (String × PrettyVal)) (sel : TagSelection) :
    dlookup (decorStep tm gm d sel) g
      = mergeMulti (dlookup d g) (resolveSel tm g sel).toList := by
  obtain ⟨tagId⟩ := sel
  cases tagId with
  | none => simp [decorStep, resolveSel, mergeMulti]
  | some tid =>
    by_cases h0 : tid = 0
    · simp [decorStep, resolveSel, h0, mergeMulti]
    · cases hm : dlookup tm tid with
      | none => simp [decorStep, resolveSel, h0, hm, mergeMulti]
      | some info =>
        by_cases hgg : info.group = g
        · cases hd : dlookup d g with
          | none =>
            simp [decorStep, resolveSel, h0, hm, hgg, hg, hd, mergeMulti,
              dlookup_dinsert_self]
          | some pv =>
            cases pv with
            | str s =>
              simp [decorStep, resolveSel, h0, hm, hgg, hg, hd, mergeMulti,
                dlookup_dinsert_self]
            | list xs =>
              simp [decorStep, resolveSel, h0, hm, hgg, hg, hd, mergeMulti,
                dlookup_dinsert_self]
        · by_cases hms : 1 < (dlookup gm info.group).getD 1
          · cases hd : dlookup d info.group with
            | none =>
              simp [decorStep, resolveSel, h0, hm, hgg, hms, hd, mergeMulti,
                dlookup_dinsert_ne d info.group g _ hgg]
            | some pv =>
              cases pv with
              | str s =>
                simp [decorStep, resolveSel, h0, hm, hgg, hms, hd, mergeMulti,
                  dlookup_dinsert_ne d info.group g _ hgg]
              | list xs =>
                simp [decorStep, resolveSel, h0, hm, hgg, hms, hd, mergeMulti,
                  dlookup_dinsert_ne d info.group g _ hgg]
          · simp [decorStep, resolveSel, h0, hm, hgg, hms, mergeMulti,
              dlookup_dinsert_ne d info.group g _ hgg]

/-- One decoration step, seen from the key of a single-select group
`g`: it overwrites the key with the name the selection resolves to for
`g` (if any) and touches nothing else at that key. -/
theorem dlookup_decorStep_single (tm : List (Int × TagInfo)) (gm : List (String × Int))
    (g : String) (hg : ¬ 1 < (dlookup gm g).getD 1)
    (d : List (String × PrettyVal)) (sel : TagSelection) :
    dlookup (decorStep tm gm d sel) g
      = overwriteLast (dlookup d g) (resolveSel tm g sel).toList := by
  obtain ⟨tagId⟩ := sel
  cases tagId with
  | none => simp [decorStep, resolveSel, overwriteLast]
  | some tid =>
    by_cases h0 : tid = 0
    · simp [decorStep, resolveSel, h0, overwriteLast]
    · cases hm : dlookup tm tid with
      | none => simp [decorStep, resolveSel, h0, hm, overwriteLast]
      | some info =>
        by_cases hgg : info.group = g
        · simp [decorStep, resolveSel, h0, hm, hgg, hg, overwriteLast,
            dlookup_dinsert_self]
        · by_cases hms : 1 < (dlookup gm info.group).getD 1
          · cases hd : dlookup d info.group with
            | none =>
              simp [decorStep, resolveSel, h0, hm, hgg, hms, hd, overwriteLast,
                dlookup_dinsert_ne d info.group g _ hgg]
            | some pv =>
              cases pv with
              | str s =>
                simp [decorStep, resolveSel, h0, hm, hgg, hms, hd, overwriteLast,
                  dlookup_dinsert_ne d info.group g _ hgg]
              | list xs =>
                simp [decorStep, resolveSel, h0, hm, hgg, hms, hd, overwriteLast,
                  dlookup_dinsert_ne d info.group g _ hgg]
          · simp [decorStep, resolveSel, h0, hm, hgg, hms, overwriteLast,
              dlookup_dinsert_ne d info.group g _ hgg]

/-- The whole decoration fold, at the key of a multi-select group. -/
theorem dlookup_foldl_multi (tm : List (Int × TagInfo)) (gm : List (String × Int))
    (g : String) (hg : 1 < (dlookup gm g).getD 1) (sels : List TagSelection) :
    ∀ d, dlookup (sels.foldl (decorStep tm gm) d) g
      = mergeMulti (dlookup d g) (resolvedNames tm g sels) := by
  induction sels with
  | nil => intro d; simp [resolvedNames, mergeMulti]
  | cons s ss ih =>
    intro d
    rw [List.foldl_cons, ih (decorStep tm gm d s), dlookup_decorStep_multi tm gm g hg d s,
      mergeMulti_append]
    congr 1
    cases hr : resolveSel tm g s <;> simp [resolvedNames, List.filterMap_cons, hr]

/-- The whole decoration fold, at the key of a single-select group. -/
theorem dlookup_foldl_single (tm : List (Int × TagInfo)) (gm : List (String × Int))
    (g : String) (hg : ¬ 1 < (dlookup gm g).getD 1) (sels : List TagSelection) :
    ∀ d, dlookup (sels.foldl (decorStep tm gm) d) g
      = overwriteLast (dlookup d g) (resolvedNames tm g sels) := by
  induction sels with
  | nil => intro d; simp [resolvedNames, overwriteLast]
  | cons s ss ih =>
    intro d
    rw [List.foldl_cons, ih (decorStep tm gm d s), dlookup_decorStep_single tm gm g hg d s,
      overwriteLast_append]
    congr 1
    cases hr : resolveSel tm g s <;> simp [resolvedNames, List.filterMap_cons, hr]

/-- Claim C4: for every group with max-selections greater than 1, the
decoration sets the group's `TagsPretty` key to the list of display
names of that group's resolvable selections, in original selection
order, one entry per resolvable selection (and leaves the key absent
when the group has no resolvable selection). -/
theorem multi_select_group_preserves_order
    (tm : List (Int × TagInfo)) (gm : List (String × Int))
    (sels : List TagSelection) (g : String) (m : Int)
    (hg : dlookup gm g = some m) (hm : 1 < m) :
    dlookup (buildTagsPretty sels tm gm) g
      = if resolvedNames tm g sels = [] then none
        else some (.list (resolvedNames tm g sels)) := by
  have hg1 : 1 < (dlookup gm g).getD 1 := by rw [hg]; simpa using hm
  rw [buildTagsPretty, dlookup_foldl_multi tm gm g hg1 sels []]
  cases hr : resolvedNames tm g sels <;> simp [mergeMulti, dlookup, hr]

/-- The "Products" / "Reason for call" demo schema of the spec's
scenario. -/
def productsGroup : Group :=
  ⟨some "Products", some 5,
    [⟨some 300, some "Hammers"⟩, ⟨some 301, some "Screwdrivers"⟩,
     ⟨some 302, some "Drills"⟩]⟩

def reasonGroup : Group :=
  ⟨some "Reason for call", some 1, [⟨some 100, some "Sales demo"⟩]⟩

def demoSchema : Schema := ⟨"schema-1", some "Demo schema", [productsGroup, reasonGroup]⟩

def demoSelections : List TagSelection := [⟨some 100⟩, ⟨some 300⟩, ⟨some 301⟩]

/-- Witness for C4 on the demo schema's "Products" group. -/
theorem multi_select_group_preserves_order_witness :
    dlookup (buildTagsPretty demoSelections (buildTagMap demoSchema.Groups)
        (buildGroupMax demoSchema.Groups)) "Products"
      = if resolvedNames (buildTagMap demoSchema.Groups) "Products" demoSelections = []
        then none
        else some (.list (resolvedNames (buildTagMap demoSchema.Groups) "Products"
          demoSelections)) :=
  multi_select_group_preserves_order (buildTagMap demoSchema.Groups)
    (buildGroupMax demoSchema.Groups) demoSelections "Products" 5 rfl (by decide)

/-- Claim C5: a group with max-selections equal to 1 that receives two
or more resolvable selections ends up with the display name of the
last-processed one — last write wins, and no error is raised (the
decoration is a total function). -/
theorem single_select_group_last_write_wins
    (tm : List (Int × TagInfo)) (gm : List (String × Int))
    (sels : List TagSelection) (g : String) (ns : List String) (t : String)
    (hg : dlookup gm g = some 1)
    (hr : resolvedNames tm g sels = ns ++ [t]) (_hn : ns ≠ []) :
    dlookup (buildTagsPretty sels tm gm) g = some (.str t) := by
  have hg1 : ¬ 1 < (dlookup gm g).getD 1 := by rw [hg]; simp
  rw [buildTagsPretty, dlookup_foldl_single tm gm g hg1 sels [], overwriteLast_eq_getLast,
    hr, List.getLast?_append_of_ne_nil ns (by simp)]
  simp

/-- Tag lookup and max-selections dict for a single-select group that
mistakenly receives two selections. -/
def reasonTagMap : List (Int × TagInfo) :=
  [(100, ⟨"Sales demo", "Reason for call"⟩), (101, ⟨"Support", "Reason for call"⟩)]

def reasonMax : List (String × Int) := [("Reason for call", 1)]

def overSelections : List TagSelection := [⟨some 100⟩, ⟨some 101⟩]

/-- Witness for C5: two selections land in the single-select group and
the second one's name wins. -/
theorem single_select_group_last_write_wins_witness :
    dlookup (buildTagsPretty overSelections reasonTagMap reasonMax) "Reason for call"
      = some (.str "Support") :=
  single_select_group_last_write_wins reasonTagMap reasonMax overSelections
    "Reason for call" ["Sales demo"] "Support" rfl rfl (by simp)

/-- Claim C6: a selection whose tag identifier is absent from the
schema's tag lookup contributes nothing to `TagsPretty` — removing it
from the selection list leaves the decoration's result unchanged — and
the decoration raises no error for it (it is a total function). -/
theorem unresolved_selection_contributes_nothing
    (tm : List (Int × TagInfo)) (gm : List (String × Int))
    (pre post : List TagSelection) (sel : TagSelection) (tid : Int)
    (hsel : sel.TagId = some tid) (hun : dlookup tm tid = none) :
    buildTagsPretty (pre ++ sel :: post) tm gm = buildTagsPretty (pre ++ post) tm gm := by
  have hstep : ∀ d, decorStep tm gm d sel = d := by
    intro d
    by_cases h0 : tid = 0 <;> simp [decorStep, hsel, h0, hun]
  simp [buildTagsPretty, List.foldl_append, List.foldl_cons, hstep]

/-- Witness for C6: selection 999 is absent from the lookup and drops
out without a trace. -/
theorem unresolved_selection_contributes_nothing_witness :
    buildTagsPretty [⟨some 100⟩, ⟨some 999⟩] reasonTagMap reasonMax
      = buildTagsPretty [⟨some 100⟩] reasonTagMap reasonMax :=
  unresolved_selection_contributes_nothing reasonTagMap reasonMax
    [⟨some 100⟩] [] ⟨some 999⟩ 999 rfl rfl

theorem dlookup_tagEntryStep_zero (g : String) (tm : List (Int × TagInfo)) (tag : Tag)
    (h : dlookup tm 0 = none) : dlookup (tagEntryStep g tm tag) 0 = none := by
  cases htag : tag.Id with
  | none => simpa [tagEntryStep, htag] using h
  | some tid =>
    by_cases h0 : tid = 0
    · simpa [tagEntryStep, htag, h0] using h
    · simpa [tagEntryStep, htag, h0, dlookup_dinsert_ne tm tid 0 _ h0] using h

theorem dlookup_foldl_tagEntryStep_zero (g : String) (tags : List Tag) :
    ∀ tm, dlookup tm 0 = none → dlookup (tags.foldl (tagEntryStep g) tm) 0 = none := by
  induction tags with
  | nil => intro tm h; simpa using h
  | cons tag rest ih =>
    intro tm h
    rw [List.foldl_cons]
    exact ih (tagEntryStep g tm tag) (dlookup_tagEntryStep_zero g tm tag h)

theorem buildTagMap_zero (groups : List Group) : dlookup (buildTagMap groups) 0 = none := by
  rw [buildTagMap]
  have h : ∀ (gs : List Group) (tm : List (Int × TagInfo)), dlookup tm 0 = none →
      dlookup (gs.foldl
        (fun tm group => (group.Tags).foldl (tagEntryStep (group.Name.getD "Unknown Group")) tm)
        tm) 0 = none := by
    intro gs
    induction gs with
    | nil => intro tm h; simpa using h
    | cons group rest ih =>
      intro tm h
      rw [List.foldl_cons]
      exact ih _ (dlookup_foldl_tagEntryStep_zero _ group.Tags tm h)
  exact h groups [] rfl

/-- Claim C10: the identifier 0 is treated like a missing identifier
throughout — a tag whose `Id` is 0 adds no entry when the tag map is
built, the built tag map never contains key 0, and a selection whose
`TagId` is 0 leaves the decoration state untouched even if the lookup
did contain key 0. -/
theorem zero_tag_id_treated_as_missing
    (group_name : String) (tm0 : List (Int × TagInfo)) (tag : Tag)
    (groups : List Group) (tm : List (Int × TagInfo)) (gm : List (String × Int))
    (d : List (String × PrettyVal)) (sel : TagSelection) :
    (tag.Id = some 0 → tagEntryStep group_name tm0 tag = tm0)
    ∧ dlookup (buildTagMap groups) 0 = none
    ∧ (sel.TagId = some 0 → decorStep tm gm d sel = d) := by
  refine ⟨fun h => ?_, buildTagMap_zero groups, fun h => ?_⟩
  · simp [tagEntryStep, h]
  · simp [decorStep, h]

/-- Witness for C10 at a schema containing a tag with identifier 0 and
a tag lookup artificially containing key 0. -/
theorem zero_tag_id_treated_as_missing_witness :
    (tagEntryStep "G" [] ⟨some 0, some "Zero"⟩ = [])
    ∧ dlookup (buildTagMap [⟨some "G", some 5, [⟨some 0, some "Zero"⟩]⟩]) 0 = none
    ∧ decorStep [(0, ⟨"Zero", "G"⟩)] [("G", 5)] [] ⟨some 0⟩ = [] := by
  have h := zero_tag_id_treated_as_missing "G" [] ⟨some 0, some "Zero"⟩
    [⟨some "G", some 5, [⟨some 0, some "Zero"⟩]⟩] [(0, ⟨"Zero", "G"⟩)] [("G", 5)] [] ⟨some 0⟩
  exact ⟨h.1 rfl, h.2.1, h.2.2 rfl⟩

/-- The classification of the spec's scenario: selections
[100, 300, 301] against the demo schema. -/
def demoClassification : Classification :=
  { Id := "cls-1", TagSchemaId := some "schema-1", TagSelections := demoSelections,
    Note := some "demo note", ClassifiedType := "ServiceCall",
    CallId := some "call-1", CallbackListItemId := none }

/-- Environment whose find query returns the demo classification for
call "call-1" and whose schema fetch returns the demo schema. -/
def demoEnv : Env :=
  { apiFindClassifications := fun call_id _ =>
      if call_id = some "call-1" then .ok [demoClassification] else .ok []
    apiGetSchema := fun schema_id _ =>
      if schema_id = "schema-1" then .ok (some demoSchema)
      else .error (.enreachAPIException "Schema not found") }

/-- Claim C2: on the spec's scenario (Products max 5 with Hammers /
Screwdrivers / Drills, Reason for call max 1 with Sales demo,
selections [100, 300, 301]) the decoration yields
`TagsPretty = [Reason for call ↦ "Sales demo",
Products ↦ ["Hammers", "Screwdrivers"]]`. -/
theorem pretty_scenario_products_reason :
    get_call_classification_pretty demoEnv "call-1"
      = .ok (some { demoClassification with
          TagsPretty := some [("Reason for call", .str "Sales demo"),
            ("Products", .list ["Hammers", "Screwdrivers"])] }) := rfl

/-- Claim C8: a classification found for a call but lacking a schema
identifier (missing key or falsy empty string) is returned unmodified —
no `TagsPretty` key is added and no error is raised. -/
theorem schemaless_classification_unmodified
    (env : Env) (call_id : String) (c : Classification) (rest : List Classification)
    (hcid : call_id ≠ "")
    (hfind : env.apiFindClassifications (some call_id) none = .ok (c :: rest))
    (hsid : c.TagSchemaId = none ∨ c.TagSchemaId = some "") :
    get_call_classification_pretty env call_id = .ok (some c) := by
  have hget : get_call_classification env call_id = .ok (some c) := by
    rw [get_call_classification, if_neg hcid, find_classifications,
      if_neg (by simp [hcid]), hfind]
    rfl
  rw [get_call_classification_pretty, if_neg hcid, hget]
  rcases hsid with h | h <;> simp [h]

/-- Classification with no schema identifier. -/
def bareClassification : Classification :=
  { Id := "cls-2", TagSchemaId := none, TagSelections := [⟨some 100⟩],
    Note := none, ClassifiedType := "ServiceCall",
    CallId := some "call-2", CallbackListItemId := none }

/-- Environment returning the schema-less classification. -/
def bareEnv : Env :=
  { apiFindClassifications := fun call_id _ =>
      if call_id = some "call-2" then .ok [bareClassification] else .ok []
    apiGetSchema := fun _ _ => .error (.enreachAPIException "Schema not found") }

/-- Witness for C8 at the schema-less classification. -/
theorem schemaless_classification_unmodified_witness :
    get_call_classification_pretty bareEnv "call-2" = .ok (some bareClassification) :=
  schemaless_classification_unmodified bareEnv "call-2" bareClassification []
    (by simp) rfl (.inl rfl)

/-- Claim C9: when the classification is found, has a truthy schema
identifier and the schema fetch succeeds with a truthy schema, the
result is the input classification with only the `TagsPretty` field
set — every other field (`Id`, `TagSchemaId`, `TagSelections`, `Note`,
`ClassifiedType`, `CallId`, `CallbackListItemId`) keeps its original
value, as the record-update form of the conclusion states. -/
theorem decoration_only_adds_tags_pretty
    (env : Env) (call_id : String) (c : Classification) (rest : List Classification)
    (schema_id : String) (schema : Schema)
    (hcid : call_id ≠ "")
    (hfind : env.apiFindClassifications (some call_id) none = .ok (c :: rest))
    (hsid : c.TagSchemaId = some schema_id) (hsid2 : schema_id ≠ "")
    (hschema : env.apiGetSchema schema_id true = .ok (some schema)) :
    get_call_classification_pretty env call_id
      = .ok (some { c with
          TagsPretty := some (buildTagsPretty c.TagSelections (buildTagMap schema.Groups)
            (buildGroupMax schema.Groups)) }) := by
  have hget : get_call_classification env call_id = .ok (some c) := by
    rw [get_call_classification, if_neg hcid, find_classifications,
      if_neg (by simp [hcid]), hfind]
    rfl
  rw [get_call_classification_pretty, if_neg hcid, hget]
  simp only [hsid, if_neg hsid2]
  rw [get_classification_schema, if_neg hsid2, hschema]

/-- Witness for C9 at the demo environment: the returned record agrees
with the input on every original field. -/
theorem decoration_only_adds_tags_pretty_witness :
    get_call_classification_pretty demoEnv "call-1"
      = .ok (some { demoClassification with
          TagsPretty := some (buildTagsPretty demoClassification.TagSelections
            (buildTagMap demoSchema.Groups) (buildGroupMax demoSchema.Groups)) }) :=
  decoration_only_adds_tags_pretty demoEnv "call-1" demoClassification []
    "schema-1" demoSchema (by simp) rfl rfl (by simp) rfl

/-- Upstream sequence that reports Pending on every fetch. -/
def constPending : Nat → Transcript := fun _ => ⟨"Pending", ""⟩

/-- One loop iteration under a Pending status with budget left. -/
theorem pollLoop_step (fetch : Nat → Transcript) (tid : String)
    (remaining fetchCount sleeps : Nat) (t : Transcript)
    (h : t.TranscriptStatus = "Pending") :
    pollLoop fetch tid (remaining + 1) fetchCount sleeps t
      = pollLoop fetch tid remaining (fetchCount + 1) (sleeps + 1) (fetch fetchCount) := by
  simp [pollLoop, h]

/-- The loop returns the current record as soon as the status is not
Pending, whatever budget is left. -/
theorem pollLoop_exit (fetch : Nat → Transcript) (tid : String)
    (remaining fetchCount sleeps : Nat) (t : Transcript)
    (h : ¬ t.TranscriptStatus = "Pending") :
    pollLoop fetch tid remaining fetchCount sleeps t = ⟨.ok t, fetchCount, sleeps⟩ := by
  cases remaining <;> simp [pollLoop, h]

/-- When every fetched record is Pending, the loop exhausts its whole
budget, fetching and sleeping once per unit, and raises the generic
`EnreachAPIException`. -/
theorem pollLoop_all_pending (fetch : Nat → Transcript) (tid : String)
    (h : ∀ n, (fetch n).TranscriptStatus = "Pending") :
    ∀ (remaining fetchCount sleeps : Nat) (t : Transcript),
      t.TranscriptStatus = "Pending" →
      pollLoop fetch tid remaining fetchCount sleeps t
        = ⟨.error (.enreachAPIException
            ("Transcript " ++ tid ++ " still pending after 10 retries")),
          fetchCount + remaining, sleeps + remaining⟩ := by
  intro remaining
  induction remaining with
  | zero => intro fc sl t ht; simp [pollLoop, ht]
  | succ r ih =>
    intro fc sl t ht
    rw [pollLoop_step fetch tid r fc sl t ht, ih (fc + 1) (sl + 1) (fetch fc) (h fc)]
    simp
    omega

/-- Claim C1, counterexample: on a run where every fetch reports
Pending, `get_transcript` with `wait_pending = true` raises the plain
base-class `EnreachAPIException` — the generic upstream error kind, as
`isBaseAPIException` certifies — not a distinct timeout kind (no timeout
exception class exists in `exceptions.py`). -/
theorem retry_exhaustion_error_is_generic_cex :
    (get_transcript constPending "t1" true).result
      = .error (.enreachAPIException "Transcript t1 still pending after 10 retries")
    ∧ isBaseAPIException
        (.enreachAPIException "Transcript t1 still pending after 10 retries") = true :=
  ⟨rfl, rfl⟩

/-- Claim C1 (amended): when `get_transcript` is called with
`wait_pending = true` and every fetch reports Pending, exhausting the
retry budget of 10 raises the generic `EnreachAPIException` with the
still-pending message; the code defines no distinct timeout error kind. -/
theorem retry_exhaustion_raises_generic_apiexception
    (fetch : Nat → Transcript) (tid : String)
    (h : ∀ n, (fetch n).TranscriptStatus = "Pending") :
    (get_transcript fetch tid true).result
      = .error (.enreachAPIException
          ("Transcript " ++ tid ++ " still pending after 10 retries")) := by
  unfold get_transcript
  rw [if_pos ⟨h 0, rfl⟩, pollLoop_all_pending fetch tid h 10 1 0 (fetch 0) (h 0)]

/-- Witness for C1's amended theorem at the all-Pending upstream. -/
theorem retry_exhaustion_raises_generic_apiexception_witness :
    (get_transcript constPending "w1" true).result
      = .error (.enreachAPIException "Transcript w1 still pending after 10 retries") :=
  retry_exhaustion_raises_generic_apiexception constPending "w1" (fun _ => rfl)

/-- Claim C3, counterexample: with every fetch Pending, the run performs
11 fetches in total (the initial fetch plus 10 in-loop retries) before
the error is raised — an 11th fetch does happen after 10 fetches have
all reported Pending, contrary to the claim. -/
theorem retry_exhaustion_fetch_count_cex :
    (get_transcript constPending "t3" true).fetches = 11
    ∧ (get_transcript constPending "t3" true).sleeps = 10 := ⟨rfl, rfl⟩

/-- Claim C3 (amended): polling a transcript that reports Pending on
every check with `wait_pending = true` raises the retry-exhaustion error
after 11 fetches (the initial fetch plus 10 retry fetches) and 10
sleeps, i.e. on the 12th would-be attempt: after 11 fetches have all
reported Pending, no further fetch is performed before the error. -/
theorem retry_exhaustion_after_eleven_fetches
    (fetch : Nat → Transcript) (tid : String)
    (h : ∀ n, (fetch n).TranscriptStatus = "Pending") :
    get_transcript fetch tid true
      = ⟨.error (.enreachAPIException
          ("Transcript " ++ tid ++ " still pending after 10 retries")), 11, 10⟩ := by
  unfold get_transcript
  rw [if_pos ⟨h 0, rfl⟩, pollLoop_all_pending fetch tid h 10 1 0 (fetch 0) (h 0)]

/-- Witness for C3's amended theorem at the all-Pending upstream. -/
theorem retry_exhaustion_after_eleven_fetches_witness :
    get_transcript constPending "w3" true
      = ⟨.error (.enreachAPIException "Transcript w3 still pending after 10 retries"),
        11, 10⟩ :=
  retry_exhaustion_after_eleven_fetches constPending "w3" (fun _ => rfl)

/-- Claim C7: when the transcript reports Pending on the first two
fetches and Completed on the third, `get_transcript` with
`wait_pending = true` returns the Completed record after exactly 3
fetches and 2 inter-attempt sleeps. -/
theorem pending_twice_completed_third
    (fetch : Nat → Transcript) (tid : String)
    (h0 : (fetch 0).TranscriptStatus = "Pending")
    (h1 : (fetch 1).TranscriptStatus = "Pending")
    (h2 : (fetch 2).TranscriptStatus = "Completed") :
    get_transcript fetch tid true = ⟨.ok (fetch 2), 3, 2⟩ :=
  calc get_transcript fetch tid true
      = pollLoop fetch tid 10 1 0 (fetch 0) := by
        unfold get_transcript; rw [if_pos ⟨h0, rfl⟩]
    _ = pollLoop fetch tid 9 2 1 (fetch 1) := pollLoop_step fetch tid 9 1 0 (fetch 0) h0
    _ = pollLoop fetch tid 8 3 2 (fetch 2) := pollLoop_step fetch tid 8 2 1 (fetch 1) h1
    _ = ⟨.ok (fetch 2), 3, 2⟩ :=
        pollLoop_exit fetch tid 8 3 2 (fetch 2) (by rw [h2]; decide)

/-- Upstream sequence: Pending, Pending, then Completed records. -/
def fetchPPC : Nat → Transcript := fun n =>
  if n < 2 then ⟨"Pending", ""⟩ else ⟨"Completed", "transcribed text"⟩

/-- Witness for C7 at a concrete Pending-Pending-Completed upstream. -/
theorem pending_twice_completed_third_witness :
    get_transcript fetchPPC "w7" true
      = ⟨.ok ⟨"Completed", "transcribed text"⟩, 3, 2⟩ :=
  pending_twice_completed_third fetchPPC "w7" rfl rfl rfl

end EnreachVoice
